import Mathlib

/-!
# Verification of the library-lending core

Shallow embedding of the lending engine of the `api_library` repository:
the copy status machine (`library/models.py`, class `BookItem`), the loan
ledger (`borrowing/models.py`, class `BorrowedBook`), the checkout
serializer (`borrowing/api/serializers.py`) and the orchestrating viewset
(`borrowing/api/views.py`).

Dates are modelled as integers (days); `date.today()` becomes an explicit
`today : Int` parameter threaded through every operation.  Money (the fine
amount, a Python float in the source) is modelled as `ℚ`.  Database rows
are association lists keyed by primary key; Django's `OneToOneField` on
`BorrowedBook.book_item` is modelled as the uniqueness check a conflicting
INSERT would fail against.
-/

/-- Error kinds, following the spec's taxonomy (§7).  `InternalError` stands
for an exception raised past validation (unreachable on the paths modelled
here). -/
inductive Err where
  | CopyNotFound
  | CopyUnavailable
  | InvalidDueDate
  | AlreadyOnLoan
  | LoanNotFound
  | InvalidExtension
  | InvalidState
  | InternalError
deriving Repr, DecidableEq

namespace BookItemStatus

/-- `BookItem.STATUS_AVAILABLE = "A"` (library/models.py). -/
def STATUS_AVAILABLE : String := "A"

/-- `BookItem.STATUS_BORROWED = "B"`. -/
def STATUS_BORROWED : String := "B"

/-- `BookItem.STATUS_RESERVED = "R"`. -/
def STATUS_RESERVED : String := "R"

/-- `BookItem.STATUS_LOST = "L"`. -/
def STATUS_LOST : String := "L"

/-- `BookItem.STATUS_CHOICES` (library/models.py): the pairs of status code
and human label. -/
def STATUS_CHOICES : List (String × String) :=
  [(STATUS_AVAILABLE, "Available"),
   (STATUS_BORROWED, "Borrowed"),
   (STATUS_RESERVED, "Reserved"),
   (STATUS_LOST, "Lost")]

end BookItemStatus

open BookItemStatus

/-- A physical copy: class `BookItem` of library/models.py.  `status` is an
open string in the source (a `CharField`), so it is a `String` here; `book`
is the foreign key to the catalog title; `publication_date` is a date. -/
structure BookItem where
  book : Nat
  barcode : String
  status : String
  publication_date : Int
deriving Repr, DecidableEq

namespace BookItem

/-- `BookItem.is_available`: `self.status == self.STATUS_AVAILABLE`. -/
def is_available (self : BookItem) : Bool :=
  self.status == STATUS_AVAILABLE

/-- `BookItem.can_be_borrowed`:
`self.status in [self.STATUS_AVAILABLE, self.STATUS_RESERVED]`. -/
def can_be_borrowed (self : BookItem) : Bool :=
  [STATUS_AVAILABLE, STATUS_RESERVED].contains self.status

/-- `BookItem.change_status(to)`: raises `ValueError` when `to` is not one
of the four status codes, otherwise writes the new status (and only the
status: `save(update_fields=["status"])`). -/
def change_status (self : BookItem) (toStatus : String) : Except String BookItem :=
  let valid_statuses := STATUS_CHOICES.map Prod.fst
  if valid_statuses.contains toStatus then
    Except.ok { self with status := toStatus }
  else
    Except.error "invalid status"

end BookItem

/-- A ledger entry: class `BorrowedBook` of borrowing/models.py.
`book_item` is the (OneToOne) key of the copy on loan, `borrower` the key
of the member; the two dates are days. -/
structure BorrowedBook where
  book_item : Nat
  borrower : Nat
  borrowed_date : Int
  due_date : Int
deriving Repr, DecidableEq

namespace BorrowedBook

/-- `BorrowedBook.is_due_date_past`: `self.due_date < date.today()`. -/
def is_due_date_past (self : BorrowedBook) (today : Int) : Bool :=
  self.due_date < today

/-- `BorrowedBook.is_overdue`: alias of `is_due_date_past`. -/
def is_overdue (self : BorrowedBook) (today : Int) : Bool :=
  self.is_due_date_past today

/-- `BorrowedBook.how_many_days_past_from_due_date`:
`time_delta = date.today() - self.due_date`; returns `time_delta.days` when
that is `>= 0`, else `None`. -/
def how_many_days_past_from_due_date (self : BorrowedBook) (today : Int) :
    Option Int :=
  let time_delta := today - self.due_date
  if time_delta ≥ 0 then some time_delta else none

/-- `BorrowedBook.extend_due_date(days)`: raises `ValueError` when
`days < 0`, otherwise `self.due_date += timedelta(days=days)`. -/
def extend_due_date (self : BorrowedBook) (days : Int) :
    Except String BorrowedBook :=
  if days < 0 then
    Except.error "days must be positive"
  else
    Except.ok { self with due_date := self.due_date + days }

/-- `BorrowedBook.get_fine_amount(daily_fine)`: Python
`if overdue_days: return overdue_days * daily_fine; return 0.0` — note the
truthiness test, under which both `None` and `0` fall through to `0.0`. -/
def get_fine_amount (self : BorrowedBook) (today : Int) (daily_fine : ℚ) : ℚ :=
  match self.how_many_days_past_from_due_date today with
  | some overdue_days =>
      if overdue_days ≠ 0 then (overdue_days : ℚ) * daily_fine else 0
  | none => 0

end BorrowedBook

namespace Serializers

/-- `BorrowedBookCreateSerializer.validate_book_item`: rejects the copy
when `not value.is_available()`.  The rejection is rendered as the
"copy unavailable" validation error. -/
def validate_book_item (value : BookItem) : Except Err BookItem :=
  if value.is_available then Except.ok value
  else Except.error Err.CopyUnavailable

/-- `BorrowedBookCreateSerializer.validate_due_date`: rejects
`value <= date.today()` and `value > date.today() + timedelta(days=180)`. -/
def validate_due_date (today : Int) (value : Int) : Except Err Int :=
  if value ≤ today then
    Except.error Err.InvalidDueDate
  else
    let max_date := today + 180
    if value > max_date then Except.error Err.InvalidDueDate
    else Except.ok value

end Serializers

/-- Association-list lookup by primary key (Django `get_object` /
`objects.get(pk=...)`). -/
def lookupKey {α : Type} : List (Nat × α) → Nat → Option α
  | [], _ => none
  | (k, v) :: t, key => if k = key then some v else lookupKey t key

/-- Row update by primary key: the first row with the key is replaced
(primary keys are unique in the store). -/
def updateKey {α : Type} : List (Nat × α) → Nat → α → List (Nat × α)
  | [], _, _ => []
  | (k, v) :: t, key, w =>
      if k = key then (k, w) :: t else (k, v) :: updateKey t key w

/-- Row deletion by primary key (Django `instance.delete()`). -/
def removeKey {α : Type} (l : List (Nat × α)) (key : Nat) : List (Nat × α) :=
  l.filter (fun p => decide ¬(p.1 = key))

/-- The persisted store: `BookItem` rows, `BorrowedBook` rows (keyed by
loan id), and the next fresh loan id. -/
structure State where
  items : List (Nat × BookItem)
  loans : List (Nat × BorrowedBook)
  nextLoanId : Nat
deriving Repr, DecidableEq

/-- Number of active loan rows referencing copy `cid`. -/
def countLoansFor (loans : List (Nat × BorrowedBook)) (cid : Nat) : Nat :=
  (loans.filter (fun p => p.2.book_item == cid)).length

/-- Checkout: `POST /api/books/` = `BorrowedBookViewset.perform_create`
inside `transaction.atomic`.  The serializer resolves and validates the
copy (`validate_book_item`) and the due date (`validate_due_date`);
`create` then inserts the `BorrowedBook` row — which the `OneToOneField`
uniqueness constraint on `book_item` rejects if an active loan already
references the copy — and flips the copy to `STATUS_BORROWED`.  Returns
the new state and the created loan's id. -/
def checkoutOp (s : State) (today : Int) (bookItemId borrowerId : Nat)
    (dueDate : Int) : Except Err (State × Nat) :=
  match lookupKey s.items bookItemId with
  | none => Except.error Err.CopyNotFound
  | some item =>
    match Serializers.validate_book_item item with
    | Except.error e => Except.error e
    | Except.ok _ =>
      match Serializers.validate_due_date today dueDate with
      | Except.error e => Except.error e
      | Except.ok _ =>
        if s.loans.any (fun p => p.2.book_item == bookItemId) then
          Except.error Err.AlreadyOnLoan
        else
          let loan : BorrowedBook :=
            { book_item := bookItemId, borrower := borrowerId,
              borrowed_date := today, due_date := dueDate }
          match item.change_status STATUS_BORROWED with
          | Except.error _ => Except.error Err.InternalError
          | Except.ok item2 =>
            Except.ok
              ({ items := updateKey s.items bookItemId item2,
                 loans := (s.nextLoanId, loan) :: s.loans,
                 nextLoanId := s.nextLoanId + 1 }, s.nextLoanId)

/-- Checkin: `DELETE /api/books/{id}/` = `BorrowedBookViewset.perform_destroy`
inside `transaction.atomic`: resolve the loan (404 otherwise), read its
copy, delete the loan row, set the copy's status to `STATUS_AVAILABLE`. -/
def checkinOp (s : State) (loanId : Nat) : Except Err State :=
  match lookupKey s.loans loanId with
  | none => Except.error Err.LoanNotFound
  | some loan =>
    match lookupKey s.items loan.book_item with
    | none => Except.error Err.CopyNotFound
    | some item =>
      match item.change_status STATUS_AVAILABLE with
      | Except.error _ => Except.error Err.InternalError
      | Except.ok item2 =>
        Except.ok
          { items := updateKey s.items loan.book_item item2,
            loans := removeKey s.loans loanId,
            nextLoanId := s.nextLoanId }

/-- Extension: `PATCH /api/books/{id}/extend/` = `BorrowedBookViewset.extend`:
resolve the loan, reject `days <= 0 or days > 30`, then delegate to
`BorrowedBook.extend_due_date`. -/
def extendOp (s : State) (loanId : Nat) (days : Int) : Except Err State :=
  match lookupKey s.loans loanId with
  | none => Except.error Err.LoanNotFound
  | some loan =>
    if days ≤ 0 ∨ days > 30 then
      Except.error Err.InvalidExtension
    else
      match loan.extend_due_date days with
      | Except.error _ => Except.error Err.InternalError
      | Except.ok loan2 =>
        Except.ok { s with loans := updateKey s.loans loanId loan2 }

/-- Manual status change: `PATCH .../items/{id}/change_status/` =
`BookItemViewSet.change_status` (library/api/views.py): rejects a value
outside `STATUS_CHOICES`, otherwise delegates to
`BookItem.change_status`. -/
def setStatusOp (s : State) (bookItemId : Nat) (newStatus : String) :
    Except Err State :=
  match lookupKey s.items bookItemId with
  | none => Except.error Err.CopyNotFound
  | some item =>
    if (STATUS_CHOICES.map Prod.fst).contains newStatus then
      match item.change_status newStatus with
      | Except.error _ => Except.error Err.InternalError
      | Except.ok item2 =>
        Except.ok { s with items := updateKey s.items bookItemId item2 }
    else
      Except.error Err.InvalidState

/-- States reachable from a loan-free store through the four exposed
operations of the core. -/
inductive Reachable : State → Prop where
  | init (items : List (Nat × BookItem)) (nextId : Nat) :
      Reachable { items := items, loans := [], nextLoanId := nextId }
  | checkout {s s' : State} {today : Int} {cid bid lid : Nat} {due : Int} :
      Reachable s → checkoutOp s today cid bid due = Except.ok (s', lid) →
      Reachable s'
  | checkin {s s' : State} {lid : Nat} :
      Reachable s → checkinOp s lid = Except.ok s' → Reachable s'
  | extend {s s' : State} {lid : Nat} {days : Int} :
      Reachable s → extendOp s lid days = Except.ok s' → Reachable s'
  | setStatus {s s' : State} {cid : Nat} {st : String} :
      Reachable s → setStatusOp s cid st = Except.ok s' → Reachable s'

/-! ## Association-list lemmas -/

theorem lookupKey_mem {α : Type} {l : List (Nat × α)} {k : Nat} {v : α}
    (h : lookupKey l k = some v) : (k, v) ∈ l := by
  induction l with
  | nil => simp [lookupKey] at h
  | cons p t ih =>
    obtain ⟨k', w⟩ := p
    by_cases hk : k' = k
    · subst hk
      simp [lookupKey] at h
      subst h
      exact List.mem_cons_self _ _
    · simp [lookupKey, hk] at h
      exact List.mem_cons_of_mem _ (ih h)

theorem lookupKey_removeKey_self {α : Type} (l : List (Nat × α)) (k : Nat) :
    lookupKey (removeKey l k) k = none := by
  induction l with
  | nil => rfl
  | cons p t ih =>
    obtain ⟨k', v⟩ := p
    by_cases h : k' = k
    · simpa [removeKey, List.filter_cons, h] using ih
    · simpa [removeKey, List.filter_cons, h, lookupKey] using ih

theorem mem_of_mem_removeKey {α : Type} {l : List (Nat × α)} {k : Nat}
    {p : Nat × α} (h : p ∈ removeKey l k) : p ∈ l :=
  List.mem_of_mem_filter h

theorem lookupKey_updateKey_self {α : Type} {l : List (Nat × α)} {k : Nat}
    {v : α} (w : α) (h : lookupKey l k = some v) :
    lookupKey (updateKey l k w) k = some w := by
  induction l with
  | nil => simp [lookupKey] at h
  | cons p t ih =>
    obtain ⟨k', v'⟩ := p
    by_cases hk : k' = k
    · simp [updateKey, lookupKey, hk]
    · simp [lookupKey, hk] at h
      simp [updateKey, lookupKey, hk]
      exact ih h

theorem lookupKey_updateKey_other {α : Type} (l : List (Nat × α))
    {k k' : Nat} (w : α) (h : k' ≠ k) :
    lookupKey (updateKey l k w) k' = lookupKey l k' := by
  induction l with
  | nil => rfl
  | cons p t ih =>
    obtain ⟨k0, v0⟩ := p
    by_cases hk : k0 = k
    · subst hk
      simp [updateKey, lookupKey, Ne.symm h]
    · by_cases hk' : k0 = k'
      · subst hk'
        simp [updateKey, lookupKey, hk]
      · simp [updateKey, lookupKey, hk, hk']
        exact ih

theorem mem_updateKey {α : Type} {l : List (Nat × α)} {k : Nat} {w : α}
    {p : Nat × α} (h : p ∈ updateKey l k w) : p ∈ l ∨ p.2 = w := by
  induction l with
  | nil => simp [updateKey] at h
  | cons q t ih =>
    obtain ⟨k0, v0⟩ := q
    by_cases hk : k0 = k
    · simp [updateKey, hk] at h
      rcases h with h | h
      · right; rw [h]
      · left; exact List.mem_cons_of_mem _ h
    · simp [updateKey, hk] at h
      rcases h with h | h
      · left; rw [h]; exact List.mem_cons_self _ _
      · rcases ih h with h' | h'
        · left; exact List.mem_cons_of_mem _ h'
        · right; exact h'

/-! ## Loan-count lemmas -/

theorem countLoansFor_nil (cid : Nat) : countLoansFor [] cid = 0 := rfl

theorem countLoansFor_cons (n : Nat) (loan : BorrowedBook)
    (l : List (Nat × BorrowedBook)) (cid : Nat) :
    countLoansFor ((n, loan) :: l) cid =
      (if loan.book_item = cid then 1 else 0) + countLoansFor l cid := by
  by_cases h : loan.book_item = cid
  · simp [countLoansFor, List.filter_cons, h, Nat.add_comm]
  · simp [countLoansFor, List.filter_cons, h]

theorem countLoansFor_eq_zero_of_any_false {l : List (Nat × BorrowedBook)}
    {cid : Nat} (h : l.any (fun p => p.2.book_item == cid) = false) :
    countLoansFor l cid = 0 := by
  induction l with
  | nil => rfl
  | cons p t ih =>
    obtain ⟨n, loan⟩ := p
    simp [List.any_cons] at h
    rw [countLoansFor_cons]
    simp [h.1, ih (by simpa using h.2)]

theorem countLoansFor_removeKey_le (l : List (Nat × BorrowedBook))
    (k : Nat) (cid : Nat) :
    countLoansFor (removeKey l k) cid ≤ countLoansFor l cid := by
  induction l with
  | nil => exact Nat.le_refl _
  | cons p t ih =>
    obtain ⟨n, loan⟩ := p
    by_cases h : n = k
    · rw [show removeKey ((n, loan) :: t) k = removeKey t k by
        simp [removeKey, List.filter_cons, h]]
      rw [countLoansFor_cons]
      exact Nat.le_trans ih (Nat.le_add_left _ _)
    · rw [show removeKey ((n, loan) :: t) k = (n, loan) :: removeKey t k by
        simp [removeKey, List.filter_cons, h]]
      rw [countLoansFor_cons, countLoansFor_cons]
      exact Nat.add_le_add_left ih _

theorem countLoansFor_updateKey {l : List (Nat × BorrowedBook)} {k : Nat}
    {v : BorrowedBook} (w : BorrowedBook) (hl : lookupKey l k = some v)
    (hbi : w.book_item = v.book_item) (cid : Nat) :
    countLoansFor (updateKey l k w) cid = countLoansFor l cid := by
  induction l with
  | nil => simp [lookupKey] at hl
  | cons p t ih =>
    obtain ⟨k0, v0⟩ := p
    by_cases hk : k0 = k
    · simp [lookupKey, hk] at hl
      subst hl
      rw [show updateKey ((k0, v0) :: t) k w = (k0, w) :: t by
        simp [updateKey, hk]]
      rw [countLoansFor_cons, countLoansFor_cons, hbi]
    · simp [lookupKey, hk] at hl
      rw [show updateKey ((k0, v0) :: t) k w = (k0, v0) :: updateKey t k w by
        simp [updateKey, hk]]
      rw [countLoansFor_cons, countLoansFor_cons, ih hl]

/-! ## Status-change evaluation lemmas -/

theorem contains_borrowed :
    (STATUS_CHOICES.map Prod.fst).contains STATUS_BORROWED = true := rfl

theorem contains_available :
    (STATUS_CHOICES.map Prod.fst).contains STATUS_AVAILABLE = true := rfl

theorem change_status_ok (item : BookItem) (st : String)
    (h : (STATUS_CHOICES.map Prod.fst).contains st = true) :
    item.change_status st = Except.ok { item with status := st } := by
  simp only [BookItem.change_status, h]
  rfl

theorem change_status_borrowed (item : BookItem) :
    item.change_status STATUS_BORROWED =
      Except.ok { item with status := STATUS_BORROWED } := rfl

theorem change_status_available (item : BookItem) :
    item.change_status STATUS_AVAILABLE =
      Except.ok { item with status := STATUS_AVAILABLE } := rfl

/-! ## Operation characterizations -/

/-- What a successful checkout tells us: the copy existed and was
`Available` to the serializer, the due date passed validation, no active
loan referenced the copy, and the new state is the old one with the copy
flipped to `Borrowed` and the fresh loan row prepended. -/
theorem checkoutOp_ok {s s' : State} {today : Int} {cid bid lid : Nat}
    {due : Int} (h : checkoutOp s today cid bid due = Except.ok (s', lid)) :
    ∃ item, lookupKey s.items cid = some item ∧
      item.is_available = true ∧
      today < due ∧ due ≤ today + 180 ∧
      s.loans.any (fun p => p.2.book_item == cid) = false ∧
      s' = { items := updateKey s.items cid
                        { item with status := STATUS_BORROWED },
             loans := (s.nextLoanId,
               { book_item := cid, borrower := bid,
                 borrowed_date := today, due_date := due }) :: s.loans,
             nextLoanId := s.nextLoanId + 1 } ∧
      lid = s.nextLoanId := by
  unfold checkoutOp at h
  split at h
  · exact Except.noConfusion h
  next item hitem =>
    split at h
    · exact Except.noConfusion h
    next v hv =>
      split at h
      · exact Except.noConfusion h
      next d hd =>
        split at h
        · exact Except.noConfusion h
        next hany =>
          rw [change_status_borrowed] at h
          have hav : item.is_available = true := by
            by_cases hb : item.is_available
            · exact hb
            · simp [Serializers.validate_book_item, hb] at hv
          have hdate : today < due ∧ due ≤ today + 180 := by
            by_cases h1 : due ≤ today
            · simp [Serializers.validate_due_date, h1] at hd
            · by_cases h2 : due > today + 180
              · simp [Serializers.validate_due_date, h1, h2] at hd
              · exact ⟨not_le.mp h1, not_lt.mp h2⟩
          refine ⟨item, hitem, hav, hdate.1, hdate.2,
            Bool.not_eq_true _ ▸ hany, ?_, ?_⟩
          · injection h with hpair
            exact (Prod.mk.injEq _ _ _ _ ▸ hpair).1.symm
          · injection h with hpair
            exact (Prod.mk.injEq _ _ _ _ ▸ hpair).2.symm

/-- What a successful checkin tells us: the loan existed, its copy existed,
and the new state drops the loan row and flips the copy to `Available`. -/
theorem checkinOp_ok {s s' : State} {lid : Nat}
    (h : checkinOp s lid = Except.ok s') :
    ∃ loan item, lookupKey s.loans lid = some loan ∧
      lookupKey s.items loan.book_item = some item ∧
      s' = { items := updateKey s.items loan.book_item
                        { item with status := STATUS_AVAILABLE },
             loans := removeKey s.loans lid,
             nextLoanId := s.nextLoanId } := by
  unfold checkinOp at h
  split at h
  · exact Except.noConfusion h
  next loan hloan =>
    split at h
    · exact Except.noConfusion h
    next item hitem =>
      rw [change_status_available] at h
      injection h with h1
      exact ⟨loan, item, hloan, hitem, h1.symm⟩

/-- What a successful extension tells us: the loan existed, the number of
days was within the policy bound, and the new state rewrites the loan with
`due_date + days`. -/
theorem extendOp_ok {s s' : State} {lid : Nat} {days : Int}
    (h : extendOp s lid days = Except.ok s') :
    ∃ loan, lookupKey s.loans lid = some loan ∧
      0 < days ∧ days ≤ 30 ∧
      s' = { s with loans := updateKey s.loans lid
                      { loan with due_date := loan.due_date + days } } := by
  unfold extendOp at h
  split at h
  · exact Except.noConfusion h
  next loan hloan =>
    split at h
    · exact Except.noConfusion h
    next hbound =>
      push_neg at hbound
      have hdays : ¬ days < 0 := not_lt.mpr (le_of_lt hbound.1)
      rw [show loan.extend_due_date days =
            Except.ok { loan with due_date := loan.due_date + days } by
        simp [BorrowedBook.extend_due_date, hdays]] at h
      injection h with h1
      exact ⟨loan, hloan, hbound.1, hbound.2, h1.symm⟩

/-- What a successful manual status change tells us: the copy existed, the
requested status is one of the four codes, and the new state rewrites only
that copy's status. -/
theorem setStatusOp_ok {s s' : State} {cid : Nat} {st : String}
    (h : setStatusOp s cid st = Except.ok s') :
    ∃ item, lookupKey s.items cid = some item ∧
      (STATUS_CHOICES.map Prod.fst).contains st = true ∧
      s' = { s with
               items := updateKey s.items cid { item with status := st } } := by
  unfold setStatusOp at h
  split at h
  · exact Except.noConfusion h
  next item hitem =>
    split at h
    next hcont =>
      rw [change_status_ok item st hcont] at h
      injection h with h1
      exact ⟨item, hitem, hcont, h1.symm⟩
    next hcont => exact Except.noConfusion h

/-! ## Invariants over the store -/

/-- Ledger exclusivity: at most one active loan row references any copy. -/
def ExclusiveLoans (s : State) : Prop :=
  ∀ cid, countLoansFor s.loans cid ≤ 1

/-- Every loan row satisfies `borrowed_date ≤ due_date` (the database
`CheckConstraint` named `due_date_after_borrowed_date`). -/
def DueDatesOk (s : State) : Prop :=
  ∀ p ∈ s.loans, p.2.borrowed_date ≤ p.2.due_date

theorem excl_checkout {s s' : State} {today : Int} {cid bid lid : Nat}
    {due : Int} (hinv : ExclusiveLoans s)
    (h : checkoutOp s today cid bid due = Except.ok (s', lid)) :
    ExclusiveLoans s' := by
  obtain ⟨item, hitem, hav, hd1, hd2, hany, hs', hlid⟩ := checkoutOp_ok h
  subst hs'
  intro c
  rw [countLoansFor_cons]
  by_cases hc : cid = c
  · subst hc
    have h0 : countLoansFor s.loans cid = 0 :=
      countLoansFor_eq_zero_of_any_false hany
    simp [h0]
  · simpa [hc] using hinv c

theorem excl_checkin {s s' : State} {lid : Nat} (hinv : ExclusiveLoans s)
    (h : checkinOp s lid = Except.ok s') : ExclusiveLoans s' := by
  obtain ⟨loan, item, hloan, hitem, hs'⟩ := checkinOp_ok h
  subst hs'
  intro c
  exact le_trans (countLoansFor_removeKey_le _ _ _) (hinv c)

theorem excl_extend {s s' : State} {lid : Nat} {days : Int}
    (hinv : ExclusiveLoans s) (h : extendOp s lid days = Except.ok s') :
    ExclusiveLoans s' := by
  obtain ⟨loan, hloan, hd1, hd2, hs'⟩ := extendOp_ok h
  subst hs'
  intro c
  have hgoal : countLoansFor
      (updateKey s.loans lid { loan with due_date := loan.due_date + days })
      c ≤ 1 := by
    rw [countLoansFor_updateKey
      { loan with due_date := loan.due_date + days } hloan rfl c]
    exact hinv c
  exact hgoal

theorem excl_setStatus {s s' : State} {cid : Nat} {st : String}
    (hinv : ExclusiveLoans s) (h : setStatusOp s cid st = Except.ok s') :
    ExclusiveLoans s' := by
  obtain ⟨item, hitem, hcont, hs'⟩ := setStatusOp_ok h
  subst hs'
  exact hinv

theorem due_checkout {s s' : State} {today : Int} {cid bid lid : Nat}
    {due : Int} (hinv : DueDatesOk s)
    (h : checkoutOp s today cid bid due = Except.ok (s', lid)) :
    DueDatesOk s' := by
  obtain ⟨item, hitem, hav, hd1, hd2, hany, hs', hlid⟩ := checkoutOp_ok h
  subst hs'
  intro p hp
  rcases List.mem_cons.mp hp with hp | hp
  · rw [hp]
    exact le_of_lt hd1
  · exact hinv p hp

theorem due_checkin {s s' : State} {lid : Nat} (hinv : DueDatesOk s)
    (h : checkinOp s lid = Except.ok s') : DueDatesOk s' := by
  obtain ⟨loan, item, hloan, hitem, hs'⟩ := checkinOp_ok h
  subst hs'
  intro p hp
  exact hinv p (mem_of_mem_removeKey hp)

theorem due_extend {s s' : State} {lid : Nat} {days : Int}
    (hinv : DueDatesOk s) (h : extendOp s lid days = Except.ok s') :
    DueDatesOk s' := by
  obtain ⟨loan, hloan, hd1, hd2, hs'⟩ := extendOp_ok h
  subst hs'
  intro p hp
  rcases mem_updateKey hp with hp' | hp'
  · exact hinv p hp'
  · rw [hp']
    have hl := hinv (lid, loan) (lookupKey_mem hloan)
    calc loan.borrowed_date ≤ loan.due_date := hl
      _ ≤ loan.due_date + days := le_add_of_nonneg_right (le_of_lt hd1)

theorem due_setStatus {s s' : State} {cid : Nat} {st : String}
    (hinv : DueDatesOk s) (h : setStatusOp s cid st = Except.ok s') :
    DueDatesOk s' := by
  obtain ⟨item, hitem, hcont, hs'⟩ := setStatusOp_ok h
  subst hs'
  exact hinv

/-! ## Forward evaluation lemmas -/

theorem validate_book_item_ok {item : BookItem}
    (h : item.is_available = true) :
    Serializers.validate_book_item item = Except.ok item := by
  unfold Serializers.validate_book_item
  rw [if_pos h]

theorem validate_book_item_err {item : BookItem}
    (h : item.is_available = false) :
    Serializers.validate_book_item item = Except.error Err.CopyUnavailable := by
  unfold Serializers.validate_book_item
  rw [if_neg (by rw [h]; exact Bool.false_ne_true)]

theorem validate_due_date_ok {today value : Int} (h1 : today < value)
    (h2 : value ≤ today + 180) :
    Serializers.validate_due_date today value = Except.ok value := by
  unfold Serializers.validate_due_date
  rw [if_neg (by omega)]
  show (if value > today + 180 then Except.error Err.InvalidDueDate
        else Except.ok value) = Except.ok value
  rw [if_neg (by omega)]

theorem validate_due_date_err_low {today value : Int} (h1 : value ≤ today) :
    Serializers.validate_due_date today value =
      Except.error Err.InvalidDueDate := by
  unfold Serializers.validate_due_date
  rw [if_pos h1]

theorem validate_due_date_err_high {today value : Int} (h1 : ¬ value ≤ today)
    (h2 : value > today + 180) :
    Serializers.validate_due_date today value =
      Except.error Err.InvalidDueDate := by
  unfold Serializers.validate_due_date
  rw [if_neg h1]
  show (if value > today + 180 then Except.error Err.InvalidDueDate
        else Except.ok value) = Except.error Err.InvalidDueDate
  rw [if_pos h2]

theorem checkoutOp_eval {s : State} {item : BookItem} {today : Int}
    {cid bid : Nat} {due : Int}
    (hitem : lookupKey s.items cid = some item)
    (hav : item.is_available = true)
    (h1 : today < due) (h2 : due ≤ today + 180)
    (hany : s.loans.any (fun p => p.2.book_item == cid) = false) :
    checkoutOp s today cid bid due =
      Except.ok
        ({ items := updateKey s.items cid
                      { item with status := STATUS_BORROWED },
           loans := (s.nextLoanId,
             { book_item := cid, borrower := bid,
               borrowed_date := today, due_date := due }) :: s.loans,
           nextLoanId := s.nextLoanId + 1 }, s.nextLoanId) := by
  simp only [checkoutOp, hitem, validate_book_item_ok hav,
    validate_due_date_ok h1 h2, hany, change_status_borrowed,
    Bool.false_eq_true, if_false]

theorem extendOp_eval {s : State} {lid : Nat} {days : Int}
    {loan : BorrowedBook} (hloan : lookupKey s.loans lid = some loan)
    (h1 : 0 < days) (h2 : days ≤ 30) :
    extendOp s lid days =
      Except.ok { s with
                  loans := updateKey s.loans lid
                    { loan with due_date := loan.due_date + days } } := by
  have hext : loan.extend_due_date days =
      Except.ok { loan with due_date := loan.due_date + days } := by
    unfold BorrowedBook.extend_due_date
    rw [if_neg (by omega)]
  simp only [extendOp, hloan, hext]
  rw [if_neg (by omega)]

theorem setStatusOp_eval {s : State} {cid : Nat} {st : String}
    {item : BookItem} (hitem : lookupKey s.items cid = some item)
    (hc : (STATUS_CHOICES.map Prod.fst).contains st = true) :
    setStatusOp s cid st =
      Except.ok { s with
        items := updateKey s.items cid { item with status := st } } := by
  simp only [setStatusOp, hitem, change_status_ok item st hc, if_pos hc]

theorem setStatusOp_err {s : State} {cid : Nat} {st : String}
    {item : BookItem} (hitem : lookupKey s.items cid = some item)
    (hc : ¬ (STATUS_CHOICES.map Prod.fst).contains st = true) :
    setStatusOp s cid st = Except.error Err.InvalidState := by
  simp only [setStatusOp, hitem]
  rw [if_neg hc]

theorem checkinOp_eval {s : State} {lid : Nat} {loan : BorrowedBook}
    {item : BookItem} (hloan : lookupKey s.loans lid = some loan)
    (hitem : lookupKey s.items loan.book_item = some item) :
    checkinOp s lid =
      Except.ok
        { items := updateKey s.items loan.book_item
                     { item with status := STATUS_AVAILABLE },
          loans := removeKey s.loans lid,
          nextLoanId := s.nextLoanId } := by
  simp only [checkinOp, hloan, hitem, change_status_available]

/-- Boundary behaviour of `how_many_days_past_from_due_date`, shared by the
overdue and fine theorems: `none` strictly before the due date, the
(nonnegative) day difference from the due date on. -/
theorem how_many_days_spec (loan : BorrowedBook) (today : Int) :
    (today < loan.due_date →
      loan.how_many_days_past_from_due_date today = none) ∧
    (loan.due_date ≤ today →
      loan.how_many_days_past_from_due_date today
        = some (today - loan.due_date)) := by
  constructor
  · intro h
    show (if today - loan.due_date ≥ 0 then some (today - loan.due_date)
          else none) = none
    rw [if_neg (by omega)]
  · intro h
    show (if today - loan.due_date ≥ 0 then some (today - loan.due_date)
          else none) = some (today - loan.due_date)
    rw [if_pos (by omega)]

/-! ## Claims -/

/-- Claim C1, counterexample: a checkout request for a copy whose status is
`Reserved` (with an otherwise valid due date) fails with `CopyUnavailable`,
although the claim states that a Reserved copy can be checked out
successfully.  The checkout path validates with `is_available` (status
exactly `Available`), not `can_be_borrowed`. -/
theorem C1_counterexample :
    checkoutOp
      { items := [(1, { book := 1, barcode := "0000000000001",
                        status := STATUS_RESERVED, publication_date := 0 })],
        loans := [], nextLoanId := 0 } 0 1 1 7
      = Except.error Err.CopyUnavailable ∧
    BookItem.can_be_borrowed
      { book := 1, barcode := "0000000000001",
        status := STATUS_RESERVED, publication_date := 0 } = true := by
  exact ⟨rfl, rfl⟩

/-- Claim C1 (amended): checkout fails with `CopyUnavailable` if and only
if the target copy's status is not `Available` (`is_available` is false);
in particular a copy whose status is `Reserved` cannot be checked out. -/
theorem C1_checkout_unavailable_iff {s : State} {today : Int}
    {cid bid : Nat} {due : Int} {item : BookItem}
    (hitem : lookupKey s.items cid = some item) :
    checkoutOp s today cid bid due = Except.error Err.CopyUnavailable ↔
      item.is_available = false := by
  constructor
  · intro h
    cases hav : item.is_available with
    | false => rfl
    | true =>
      exfalso
      by_cases h1 : due ≤ today
      · rw [show checkoutOp s today cid bid due =
            Except.error Err.InvalidDueDate by
          simp only [checkoutOp, hitem, validate_book_item_ok hav,
            validate_due_date_err_low h1]] at h
        injection h with h2
        exact Err.noConfusion h2
      · by_cases h2 : due > today + 180
        · rw [show checkoutOp s today cid bid due =
              Except.error Err.InvalidDueDate by
            simp only [checkoutOp, hitem, validate_book_item_ok hav,
              validate_due_date_err_high h1 h2]] at h
          injection h with h3
          exact Err.noConfusion h3
        · cases hany : s.loans.any (fun p => p.2.book_item == cid) with
          | true =>
            rw [show checkoutOp s today cid bid due =
                Except.error Err.AlreadyOnLoan by
              simp only [checkoutOp, hitem, validate_book_item_ok hav,
                validate_due_date_ok (not_le.mp h1) (not_lt.mp h2), hany,
                if_true]] at h
            injection h with h3
            exact Err.noConfusion h3
          | false =>
            rw [checkoutOp_eval hitem hav (not_le.mp h1) (not_lt.mp h2)
              hany] at h
            exact Except.noConfusion h
  · intro h
    simp only [checkoutOp, hitem, validate_book_item_err h]

/-- Witness for C1 (amended): the equivalence instantiated at a concrete
Reserved copy. -/
theorem C1_checkout_unavailable_iff_witness :
    (checkoutOp
        { items := [(2, { book := 1, barcode := "0000000000002",
                          status := STATUS_RESERVED, publication_date := 0 })],
          loans := [], nextLoanId := 0 } 0 2 1 7
        = Except.error Err.CopyUnavailable ↔
      BookItem.is_available
        { book := 1, barcode := "0000000000002",
          status := STATUS_RESERVED, publication_date := 0 } = false) :=
  C1_checkout_unavailable_iff rfl

/-- Claim C2: in every reachable state of the core, at most one active
loan references any given copy; each of the exposed operations (checkout,
checkin, extend, and also the manual status change) preserves this
exclusivity invariant. -/
theorem C2_loan_exclusivity {s : State} (h : Reachable s) :
    ExclusiveLoans s := by
  induction h with
  | init items nextId => intro cid; exact Nat.zero_le 1
  | checkout _ hstep ih => exact excl_checkout ih hstep
  | checkin _ hstep ih => exact excl_checkin ih hstep
  | extend _ hstep ih => exact excl_extend ih hstep
  | setStatus _ hstep ih => exact excl_setStatus ih hstep

/-- Witness for C2: exclusivity in the concrete state reached by one
successful checkout from a loan-free store. -/
theorem C2_loan_exclusivity_witness :
    ExclusiveLoans
      { items := [(1, { book := 1, barcode := "0000000000001",
                        status := STATUS_BORROWED, publication_date := 0 })],
        loans := [(0, { book_item := 1, borrower := 1,
                        borrowed_date := 0, due_date := 7 })],
        nextLoanId := 1 } :=
  C2_loan_exclusivity
    (Reachable.checkout
      (Reachable.init
        [(1, { book := 1, barcode := "0000000000001",
               status := STATUS_AVAILABLE, publication_date := 0 })] 0)
      (show checkoutOp
          { items := [(1, { book := 1, barcode := "0000000000001",
                            status := STATUS_AVAILABLE,
                            publication_date := 0 })],
            loans := [], nextLoanId := 0 } 0 1 1 7
          = Except.ok
              ({ items := [(1, { book := 1, barcode := "0000000000001",
                                 status := STATUS_BORROWED,
                                 publication_date := 0 })],
                 loans := [(0, { book_item := 1, borrower := 1,
                                 borrowed_date := 0, due_date := 7 })],
                 nextLoanId := 1 }, 0) from rfl))

/-- Claim C3, counterexample: on the day the loan falls due
(`today = due_date`), `how_many_days_past_from_due_date` returns `some 0`,
not the absent value the claim requires for `today <= dueAt`. -/
theorem C3_counterexample :
    BorrowedBook.how_many_days_past_from_due_date
      { book_item := 1, borrower := 1, borrowed_date := 0, due_date := 5 } 5
      = some 0 ∧
    BorrowedBook.how_many_days_past_from_due_date
      { book_item := 1, borrower := 1, borrowed_date := 0, due_date := 5 } 5
      ≠ none := by
  exact ⟨rfl, by decide⟩

/-- Claim C3 (amended): `daysOverdue(loan, today)` is absent whenever
`today < dueAt`, and equals `today - dueAt` in days whenever
`today ≥ dueAt`; in particular it is `0`, not absent, when `today` equals
the due date. -/
theorem C3_days_overdue (loan : BorrowedBook) (today : Int) :
    (today < loan.due_date →
      loan.how_many_days_past_from_due_date today = none) ∧
    (loan.due_date ≤ today →
      loan.how_many_days_past_from_due_date today
        = some (today - loan.due_date)) :=
  how_many_days_spec loan today

/-- Witness for C3 (amended): both branches at concrete dates. -/
theorem C3_days_overdue_witness :
    BorrowedBook.how_many_days_past_from_due_date
      { book_item := 1, borrower := 1, borrowed_date := 0, due_date := 9 } 4
      = none ∧
    BorrowedBook.how_many_days_past_from_due_date
      { book_item := 1, borrower := 1, borrowed_date := 0, due_date := 9 } 12
      = some 3 :=
  ⟨(C3_days_overdue _ 4).1 (by decide), (C3_days_overdue _ 12).2 (by decide)⟩

/-- Claim C4: with the loan present, the extension endpoint fails with
`InvalidExtension` iff `days ≤ 0` or `days > 30`; on success the loan's
due date becomes the old due date plus `days` (hence never decreases). -/
theorem C4_extend_policy {s : State} {lid : Nat} {days : Int}
    {loan : BorrowedBook} (hloan : lookupKey s.loans lid = some loan) :
    (extendOp s lid days = Except.error Err.InvalidExtension ↔
      days ≤ 0 ∨ days > 30) ∧
    ∀ s', extendOp s lid days = Except.ok s' →
      lookupKey s'.loans lid =
        some { loan with due_date := loan.due_date + days } ∧
      loan.due_date ≤ loan.due_date + days := by
  constructor
  · constructor
    · intro h
      by_contra hb
      push_neg at hb
      rw [extendOp_eval hloan hb.1 hb.2] at h
      exact Except.noConfusion h
    · intro hb
      simp only [extendOp, hloan]
      rw [if_pos hb]
  · intro s' h
    obtain ⟨loan2, hloan2, hd1, hd2, hs'⟩ := extendOp_ok h
    rw [hloan] at hloan2
    injection hloan2 with he
    subst he
    subst hs'
    constructor
    · exact lookupKey_updateKey_self _ hloan
    · omega

/-- Witness for C4: `extend` by 40 days is rejected; `extend` by 10 days
moves the due date from day 7 to day 17. -/
theorem C4_extend_policy_witness :
    extendOp { items := [],
               loans := [(0, { book_item := 1, borrower := 1,
                               borrowed_date := 0, due_date := 7 })],
               nextLoanId := 1 } 0 40
      = Except.error Err.InvalidExtension ∧
    lookupKey
      (({ items := [],
          loans := [(0, { book_item := 1, borrower := 1,
                          borrowed_date := 0, due_date := 17 })],
          nextLoanId := 1 } : State)).loans 0
      = some { book_item := 1, borrower := 1,
               borrowed_date := 0, due_date := 17 } := by
  constructor
  · exact (C4_extend_policy
      (show lookupKey
          (({ items := [],
              loans := [(0, { book_item := 1, borrower := 1,
                              borrowed_date := 0, due_date := 7 })],
              nextLoanId := 1 } : State)).loans 0
        = some { book_item := 1, borrower := 1,
                 borrowed_date := 0, due_date := 7 } from rfl)).1.mpr
      (Or.inr (by decide))
  · exact ((C4_extend_policy
      (show lookupKey
          (({ items := [],
              loans := [(0, { book_item := 1, borrower := 1,
                              borrowed_date := 0, due_date := 7 })],
              nextLoanId := 1 } : State)).loans 0
        = some { book_item := 1, borrower := 1,
                 borrowed_date := 0, due_date := 7 } from rfl)).2
      { items := [],
        loans := [(0, { book_item := 1, borrower := 1,
                        borrowed_date := 0, due_date := 17 })],
        nextLoanId := 1 }
      (show extendOp
          { items := [],
            loans := [(0, { book_item := 1, borrower := 1,
                            borrowed_date := 0, due_date := 7 })],
            nextLoanId := 1 } 0 10
        = Except.ok
            { items := [],
              loans := [(0, { book_item := 1, borrower := 1,
                              borrowed_date := 0, due_date := 17 })],
              nextLoanId := 1 } from rfl)).1

/-- Claim C5: a successful checkout followed by a checkin of the created
loan leaves the copy `Available`, and the loan can no longer be retrieved
(the lookup yields nothing). -/
theorem C5_round_trip {s s1 s2 : State} {today : Int} {cid bid lid : Nat}
    {due : Int} {item : BookItem}
    (_hitem : lookupKey s.items cid = some item)
    (_hstart : item.status = STATUS_AVAILABLE ∨ item.status = STATUS_RESERVED)
    (hco : checkoutOp s today cid bid due = Except.ok (s1, lid))
    (hci : checkinOp s1 lid = Except.ok s2) :
    (∃ item2, lookupKey s2.items cid = some item2 ∧
      item2.status = STATUS_AVAILABLE) ∧
    lookupKey s2.loans lid = none := by
  obtain ⟨item0, hitem0, hav, hd1, hd2, hany, hs1, hlid⟩ := checkoutOp_ok hco
  subst hs1
  subst hlid
  obtain ⟨loan2, item2, hloan2, hitem2, hs2⟩ := checkinOp_ok hci
  have hloan2' : lookupKey ((s.nextLoanId,
      ({ book_item := cid, borrower := bid, borrowed_date := today,
         due_date := due } : BorrowedBook)) :: s.loans) s.nextLoanId
      = some loan2 := hloan2
  rw [show lookupKey ((s.nextLoanId,
      ({ book_item := cid, borrower := bid, borrowed_date := today,
         due_date := due } : BorrowedBook)) :: s.loans) s.nextLoanId
      = some { book_item := cid, borrower := bid, borrowed_date := today,
               due_date := due } by simp [lookupKey]] at hloan2'
  injection hloan2' with he2
  subst he2
  subst hs2
  constructor
  · exact ⟨_, lookupKey_updateKey_self _ hitem2, rfl⟩
  · exact lookupKey_removeKey_self _ _

/-- Witness for C5: a concrete checkout/checkin round trip from a single
`Available` copy; the copy ends `Available` and the loan row is gone. -/
theorem C5_round_trip_witness :
    (∃ item2, lookupKey
        (({ items := [(1, { book := 1, barcode := "0000000000001",
                            status := STATUS_AVAILABLE,
                            publication_date := 0 })],
            loans := [], nextLoanId := 1 } : State)).items 1
        = some item2 ∧ item2.status = STATUS_AVAILABLE) ∧
    lookupKey
      (({ items := [(1, { book := 1, barcode := "0000000000001",
                          status := STATUS_AVAILABLE,
                          publication_date := 0 })],
          loans := [], nextLoanId := 1 } : State)).loans 0 = none :=
  C5_round_trip
    (show lookupKey
        (({ items := [(1, { book := 1, barcode := "0000000000001",
                            status := STATUS_AVAILABLE,
                            publication_date := 0 })],
            loans := [], nextLoanId := 0 } : State)).items 1
      = some { book := 1, barcode := "0000000000001",
               status := STATUS_AVAILABLE, publication_date := 0 } from rfl)
    (Or.inl rfl)
    (show checkoutOp
        { items := [(1, { book := 1, barcode := "0000000000001",
                          status := STATUS_AVAILABLE,
                          publication_date := 0 })],
          loans := [], nextLoanId := 0 } 0 1 1 7
      = Except.ok
          ({ items := [(1, { book := 1, barcode := "0000000000001",
                             status := STATUS_BORROWED,
                             publication_date := 0 })],
             loans := [(0, { book_item := 1, borrower := 1,
                             borrowed_date := 0, due_date := 7 })],
             nextLoanId := 1 }, 0) from rfl)
    (show checkinOp
        { items := [(1, { book := 1, barcode := "0000000000001",
                          status := STATUS_BORROWED,
                          publication_date := 0 })],
          loans := [(0, { book_item := 1, borrower := 1,
                          borrowed_date := 0, due_date := 7 })],
          nextLoanId := 1 } 0
      = Except.ok
          { items := [(1, { book := 1, barcode := "0000000000001",
                            status := STATUS_AVAILABLE,
                            publication_date := 0 })],
            loans := [], nextLoanId := 1 } from rfl)

/-- Claim C6: the due-date validator rejects with `InvalidDueDate` exactly
when `due ≤ today` or `due > today + 180`; a successful checkout creates
its loan with `borrowed_date = today`. -/
theorem C6_open_validation (today due : Int) :
    (Serializers.validate_due_date today due = Except.error Err.InvalidDueDate
      ↔ (due ≤ today ∨ due > today + 180)) ∧
    ∀ (s s' : State) (cid bid lid : Nat),
      checkoutOp s today cid bid due = Except.ok (s', lid) →
      ∃ loan, lookupKey s'.loans lid = some loan ∧
        loan.borrowed_date = today := by
  constructor
  · constructor
    · intro h
      by_contra hb
      push_neg at hb
      rw [validate_due_date_ok hb.1 hb.2] at h
      exact Except.noConfusion h
    · intro hb
      rcases hb with hb | hb
      · exact validate_due_date_err_low hb
      · exact validate_due_date_err_high (by omega) hb
  · intro s s' cid bid lid h
    obtain ⟨item, hitem, hav, hd1, hd2, hany, hs', hlid⟩ := checkoutOp_ok h
    subst hs'
    subst hlid
    refine ⟨{ book_item := cid, borrower := bid, borrowed_date := today,
              due_date := due }, ?_, rfl⟩
    show lookupKey ((s.nextLoanId,
        ({ book_item := cid, borrower := bid, borrowed_date := today,
           due_date := due } : BorrowedBook)) :: s.loans) s.nextLoanId
      = some { book_item := cid, borrower := bid, borrowed_date := today,
               due_date := due }
    simp [lookupKey]

/-- Witness for C6: a 200-day horizon is rejected on day 0; a 7-day
checkout on day 0 creates a loan borrowed on day 0. -/
theorem C6_open_validation_witness :
    Serializers.validate_due_date 0 200 = Except.error Err.InvalidDueDate ∧
    (∃ loan, lookupKey
        (({ items := [(1, { book := 1, barcode := "0000000000001",
                            status := STATUS_BORROWED,
                            publication_date := 0 })],
            loans := [(0, { book_item := 1, borrower := 1,
                            borrowed_date := 0, due_date := 7 })],
            nextLoanId := 1 } : State)).loans 0 = some loan ∧
      loan.borrowed_date = 0) := by
  constructor
  · exact (C6_open_validation 0 200).1.mpr (Or.inr (by decide))
  · exact (C6_open_validation 0 7).2
      { items := [(1, { book := 1, barcode := "0000000000001",
                        status := STATUS_AVAILABLE, publication_date := 0 })],
        loans := [], nextLoanId := 0 }
      { items := [(1, { book := 1, barcode := "0000000000001",
                        status := STATUS_BORROWED, publication_date := 0 })],
        loans := [(0, { book_item := 1, borrower := 1,
                        borrowed_date := 0, due_date := 7 })],
        nextLoanId := 1 } 1 1 0 rfl

/-- Claim C7: the fine is `(today - dueAt) * dailyRate` when the loan is
overdue and `0` otherwise (the daily rate being a parameter). -/
theorem C7_fine_amount (loan : BorrowedBook) (today : Int) (daily_fine : ℚ) :
    (loan.is_overdue today = true →
      loan.get_fine_amount today daily_fine =
        ((today - loan.due_date : Int) : ℚ) * daily_fine) ∧
    (loan.is_overdue today = false →
      loan.get_fine_amount today daily_fine = 0) := by
  constructor
  · intro h
    have hlt : loan.due_date < today := by
      simpa [BorrowedBook.is_overdue, BorrowedBook.is_due_date_past,
        decide_eq_true_eq] using h
    have hsome := (how_many_days_spec loan today).2 (le_of_lt hlt)
    have hred : loan.get_fine_amount today daily_fine =
        if (today - loan.due_date) ≠ 0 then
          ((today - loan.due_date : Int) : ℚ) * daily_fine else 0 := by
      unfold BorrowedBook.get_fine_amount
      rw [hsome]
    rw [hred, if_pos (by omega)]
  · intro h
    have hle : today ≤ loan.due_date := by
      simpa [BorrowedBook.is_overdue, BorrowedBook.is_due_date_past]
        using h
    rcases lt_or_eq_of_le hle with hlt | heq
    · have hnone := (how_many_days_spec loan today).1 hlt
      unfold BorrowedBook.get_fine_amount
      rw [hnone]
    · have hsome := (how_many_days_spec loan today).2 (le_of_eq heq.symm)
      have hred : loan.get_fine_amount today daily_fine =
          if (today - loan.due_date) ≠ 0 then
            ((today - loan.due_date : Int) : ℚ) * daily_fine else 0 := by
        unfold BorrowedBook.get_fine_amount
        rw [hsome]
      rw [hred, if_neg (by omega)]

/-- Witness for C7: the spec's concrete scenario — due three days ago at a
daily rate of 10 the fine is 30; on the due date itself it is 0. -/
theorem C7_fine_amount_witness :
    BorrowedBook.get_fine_amount
      { book_item := 1, borrower := 1, borrowed_date := 0, due_date := 0 }
      3 10 = 30 ∧
    BorrowedBook.get_fine_amount
      { book_item := 1, borrower := 1, borrowed_date := 0, due_date := 5 }
      5 10 = 0 := by
  constructor
  · have h := (C7_fine_amount
      { book_item := 1, borrower := 1, borrowed_date := 0, due_date := 0 }
      3 10).1 (by decide)
    rw [h]
    norm_num
  · exact (C7_fine_amount
      { book_item := 1, borrower := 1, borrowed_date := 0, due_date := 5 }
      5 10).2 (by decide)

/-- Claim C8: in every reachable state, every loan satisfies
`due_date ≥ borrowed_date`; creation and extension (and the other
operations) preserve the invariant. -/
theorem C8_due_ge_borrowed {s : State} (h : Reachable s) : DueDatesOk s := by
  induction h with
  | init items nextId =>
    intro p hp
    exact absurd hp (List.not_mem_nil p)
  | checkout _ hstep ih => exact due_checkout ih hstep
  | checkin _ hstep ih => exact due_checkin ih hstep
  | extend _ hstep ih => exact due_extend ih hstep
  | setStatus _ hstep ih => exact due_setStatus ih hstep

/-- Witness for C8: the invariant in the concrete state reached by a
checkout on day 3 with due day 10. -/
theorem C8_due_ge_borrowed_witness :
    DueDatesOk
      { items := [(5, { book := 2, barcode := "0000000000005",
                        status := STATUS_BORROWED, publication_date := 0 })],
        loans := [(0, { book_item := 5, borrower := 2,
                        borrowed_date := 3, due_date := 10 })],
        nextLoanId := 1 } :=
  C8_due_ge_borrowed
    (Reachable.checkout
      (Reachable.init
        [(5, { book := 2, barcode := "0000000000005",
               status := STATUS_AVAILABLE, publication_date := 0 })] 0)
      (show checkoutOp
          { items := [(5, { book := 2, barcode := "0000000000005",
                            status := STATUS_AVAILABLE,
                            publication_date := 0 })],
            loans := [], nextLoanId := 0 } 3 5 2 10
        = Except.ok
            ({ items := [(5, { book := 2, barcode := "0000000000005",
                               status := STATUS_BORROWED,
                               publication_date := 0 })],
               loans := [(0, { book_item := 5, borrower := 2,
                               borrowed_date := 3, due_date := 10 })],
               nextLoanId := 1 }, 0) from rfl))

/-- Claim C9: with the copy present, the manual status change fails with
`InvalidState` exactly when the requested value is outside the four status
codes; on success only that copy's status changes — its other fields, every
other copy, the loan rows and the id counter are untouched. -/
theorem C9_set_status_frame {s : State} {cid : Nat} {st : String}
    {item : BookItem} (hitem : lookupKey s.items cid = some item) :
    (setStatusOp s cid st = Except.error Err.InvalidState ↔
      (STATUS_CHOICES.map Prod.fst).contains st = false) ∧
    ∀ s', setStatusOp s cid st = Except.ok s' →
      lookupKey s'.items cid = some { item with status := st } ∧
      s'.loans = s.loans ∧ s'.nextLoanId = s.nextLoanId ∧
      ∀ cid2, cid2 ≠ cid →
        lookupKey s'.items cid2 = lookupKey s.items cid2 := by
  constructor
  · constructor
    · intro h
      cases hc : (STATUS_CHOICES.map Prod.fst).contains st with
      | false => rfl
      | true =>
        rw [setStatusOp_eval hitem hc] at h
        exact Except.noConfusion h
    · intro hc
      exact setStatusOp_err hitem (by rw [hc]; exact Bool.false_ne_true)
  · intro s' h
    obtain ⟨item0, hitem0, hc, hs'⟩ := setStatusOp_ok h
    rw [hitem] at hitem0
    injection hitem0 with he
    subst he
    subst hs'
    refine ⟨lookupKey_updateKey_self _ hitem, rfl, rfl, ?_⟩
    intro cid2 hne
    exact lookupKey_updateKey_other _ _ hne

/-- Witness for C9: a made-up status string is rejected; setting `Lost` on
a Borrowed copy rewrites exactly that status. -/
theorem C9_set_status_frame_witness :
    setStatusOp
      { items := [(3, { book := 1, barcode := "0000000000003",
                        status := STATUS_BORROWED, publication_date := 0 })],
        loans := [(0, { book_item := 3, borrower := 1,
                        borrowed_date := 0, due_date := 7 })],
        nextLoanId := 1 } 3 "Q" = Except.error Err.InvalidState ∧
    lookupKey
      (({ items := [(3, { book := 1, barcode := "0000000000003",
                          status := STATUS_LOST, publication_date := 0 })],
          loans := [(0, { book_item := 3, borrower := 1,
                          borrowed_date := 0, due_date := 7 })],
          nextLoanId := 1 } : State)).items 3
      = some { book := 1, barcode := "0000000000003",
               status := STATUS_LOST, publication_date := 0 } := by
  constructor
  · exact (C9_set_status_frame
      (show lookupKey
          (({ items := [(3, { book := 1, barcode := "0000000000003",
                              status := STATUS_BORROWED,
                              publication_date := 0 })],
              loans := [(0, { book_item := 3, borrower := 1,
                              borrowed_date := 0, due_date := 7 })],
              nextLoanId := 1 } : State)).items 3
        = some { book := 1, barcode := "0000000000003",
                 status := STATUS_BORROWED, publication_date := 0 }
        from rfl)).1.mpr rfl
  · exact ((C9_set_status_frame
      (show lookupKey
          (({ items := [(3, { book := 1, barcode := "0000000000003",
                              status := STATUS_BORROWED,
                              publication_date := 0 })],
              loans := [(0, { book_item := 3, borrower := 1,
                              borrowed_date := 0, due_date := 7 })],
              nextLoanId := 1 } : State)).items 3
        = some { book := 1, barcode := "0000000000003",
                 status := STATUS_BORROWED, publication_date := 0 }
        from rfl)).2
      { items := [(3, { book := 1, barcode := "0000000000003",
                        status := STATUS_LOST, publication_date := 0 })],
        loans := [(0, { book_item := 3, borrower := 1,
                        borrowed_date := 0, due_date := 7 })],
        nextLoanId := 1 }
      (show setStatusOp
          { items := [(3, { book := 1, barcode := "0000000000003",
                            status := STATUS_BORROWED,
                            publication_date := 0 })],
            loans := [(0, { book_item := 3, borrower := 1,
                            borrowed_date := 0, due_date := 7 })],
            nextLoanId := 1 } 3 STATUS_LOST
        = Except.ok
            { items := [(3, { book := 1, barcode := "0000000000003",
                              status := STATUS_LOST,
                              publication_date := 0 })],
              loans := [(0, { book_item := 3, borrower := 1,
                              borrowed_date := 0, due_date := 7 })],
              nextLoanId := 1 } from rfl)).1

/-- Claim C10: whenever the loan and its copy exist, checkin succeeds and
sets the copy's status to `Available` unconditionally — whatever status
the copy holds at that moment (in particular `Lost`). -/
theorem C10_checkin_sets_available {s : State} {lid : Nat}
    {loan : BorrowedBook} {item : BookItem}
    (hloan : lookupKey s.loans lid = some loan)
    (hitem : lookupKey s.items loan.book_item = some item) :
    ∃ s', checkinOp s lid = Except.ok s' ∧
      lookupKey s'.items loan.book_item =
        some { item with status := STATUS_AVAILABLE } := by
  refine ⟨_, checkinOp_eval hloan hitem, ?_⟩
  exact lookupKey_updateKey_self _ hitem

/-- Witness for C10: checking in a loan whose copy was marked `Lost`
transitions that copy from `Lost` back to `Available`. -/
theorem C10_checkin_sets_available_witness :
    ∃ s', checkinOp
        { items := [(4, { book := 1, barcode := "0000000000004",
                          status := STATUS_LOST, publication_date := 0 })],
          loans := [(0, { book_item := 4, borrower := 1,
                          borrowed_date := 0, due_date := 7 })],
          nextLoanId := 1 } 0 = Except.ok s' ∧
      lookupKey s'.items 4
        = some { book := 1, barcode := "0000000000004",
                 status := STATUS_AVAILABLE, publication_date := 0 } :=
  C10_checkin_sets_available
    (show lookupKey
        (({ items := [(4, { book := 1, barcode := "0000000000004",
                            status := STATUS_LOST, publication_date := 0 })],
            loans := [(0, { book_item := 4, borrower := 1,
                            borrowed_date := 0, due_date := 7 })],
            nextLoanId := 1 } : State)).loans 0
      = some { book_item := 4, borrower := 1,
               borrowed_date := 0, due_date := 7 } from rfl)
    (show lookupKey
        (({ items := [(4, { book := 1, barcode := "0000000000004",
                            status := STATUS_LOST, publication_date := 0 })],
            loans := [(0, { book_item := 4, borrower := 1,
                            borrowed_date := 0, due_date := 7 })],
            nextLoanId := 1 } : State)).items
        (({ book_item := 4, borrower := 1, borrowed_date := 0,
            due_date := 7 } : BorrowedBook)).book_item
      = some { book := 1, barcode := "0000000000004",
               status := STATUS_LOST, publication_date := 0 } from rfl)
